import Mathlib

/-
Verification of the command-assembly core of src/video/builder.py
(class VideoBuilder).

Modelling conventions, chosen to mirror the Python source line by line:

* Machine floats (audio durations, zoom factors) are modelled as rationals.
  The float-to-string conversion performed by str()/f-strings is abstracted
  as an explicit parameter fmt : Q -> String that is threaded through the
  assembly; every theorem quantifies over it, so nothing depends on the
  concrete decimal rendering.
* Python int() truncation toward zero is pyInt.
* Python truthiness of the optional string fields (None and the empty
  string are falsy) is strTruthy; truthiness of an optional float
  (None and 0.0 are falsy) is ratOptTruthy.  The background and caption
  records are non-empty dicts whenever they are set, hence truthy exactly
  when set; they are modelled as Option-valued fields tested with isNone.
* The ValueError raises of the source are split into the three error
  kinds of the design document: invalidConfiguration for the constructor
  check and the four validation rules (lines 12-13 and 75-94),
  missingCollaborator for the missing media_utils check (lines 99-102)
  and durationUnavailable for the unresolvable-duration check
  (lines 105-106).  All raises abort assembly, modelled with Except.
* The media inspector collaborator is modelled by the only query the
  builder makes of it: get_audio_info(path).get("duration"), i.e. a
  function String -> Option Q.
-/

namespace VB

/-- Error kinds of the design document (section 7); each carries the
human-readable message of the corresponding ValueError in the source. -/
inductive Err
  | invalidConfiguration (msg : String)
  | missingCollaborator (msg : String)
  | durationUnavailable (msg : String)
deriving DecidableEq, Repr

/-- Python truthiness of an optional string: None and the empty string
are falsy. -/
def strTruthy : Option String → Bool
  | none => false
  | some s => !s.isEmpty

/-- Python truthiness of an optional float: None and 0.0 are falsy. -/
def ratOptTruthy : Option ℚ → Bool
  | none => false
  | some q => !(q == 0)

/-- Python int() on a float: truncation toward zero. -/
def pyInt (q : ℚ) : ℤ := if 0 ≤ q then ⌊q⌋ else ⌈q⌉

/-- Python str() applied to an optional float; str(None) = "None".
fmt is the abstracted float-to-string conversion. -/
def fmtOpt (fmt : ℚ → String) : Option ℚ → String
  | none => "None"
  | some q => fmt q

/-- The runtime value passed as the dimensions argument of the
constructor: either not a tuple at all, or a tuple of integers of
arbitrary length (line 11). -/
inductive DimArg
  | notTuple
  | tuple (elems : List ℤ)
deriving DecidableEq, Repr

/-- The ken_burns configuration dict stored by set_background_image
(line 37).  The code reads only the key zoom_factor (line 123); the key
direction is accepted but never read (line 122 is commented out). -/
structure KenBurnsConfig where
  direction : Option String
  zoom_factor : Option ℚ
deriving DecidableEq, Repr

/-- The background dict (lines 34-38, 43): a tagged record that is an
image with a ken_burns config, or a video. -/
inductive Background
  | image (file : String) (ken_burns : KenBurnsConfig)
  | video (file : String)
deriving DecidableEq, Repr

/-- The value of background["type"] (lines 35, 43). -/
def Background.typeStr : Background → String
  | .image _ _ => "image"
  | .video _ => "video"

/-- The caption record stored by set_captions (lines 62-65): a dict that
always carries the key "file".  Other merged-in keys are never read by
build_command, so only the "file" entry is modelled. -/
structure Captions where
  file : Option String
deriving DecidableEq, Repr

/-- The optional config dict argument of set_captions.  Its "file" entry
is modelled as an outer Option (key present or not) around the value
(which may itself be None). -/
structure CaptionConfig where
  file : Option (Option String)
deriving DecidableEq, Repr

/-- The media inspector collaborator, reduced to the single query made
by build_command: get_audio_info(path).get("duration") (lines 103-104). -/
def MediaUtils : Type := String → Option ℚ

/-- The fields of a VideoBuilder instance (lines 15-25). -/
structure Builder where
  width : ℤ
  height : ℤ
  ffmpeg_path : String
  background : Option Background
  audio_file : Option String
  captions : Option Captions
  output_path : String
  media_utils : Option MediaUtils

/-- VideoBuilder.__init__ (lines 11-25): rejects a dimensions value that
is not a tuple of length two, then unpacks width and height; all
components start unset and the output path defaults to output.mp4.
Positivity of the components is not checked. -/
def mkVideoBuilder (dimensions : DimArg) (ffmpeg_path : String) : Except Err Builder :=
  match dimensions with
  | .tuple [w, h] =>
    Except.ok
      { width := w, height := h, ffmpeg_path := ffmpeg_path,
        background := none, audio_file := none, captions := none,
        output_path := "output.mp4", media_utils := none }
  | _ => Except.error (.invalidConfiguration "Dimensions must be a tuple of (width, height).")

/-- set_media_utils (lines 27-30). -/
def set_media_utils (b : Builder) (media_utils : MediaUtils) : Builder :=
  { b with media_utils := some media_utils }

/-- set_background_image (lines 32-39); a missing config is replaced by
the empty dict. -/
def set_background_image (b : Builder) (file_path : String)
    (ken_burns_config : Option KenBurnsConfig) : Builder :=
  { b with
      background := some (Background.image file_path (ken_burns_config.getD ⟨none, none⟩)) }

/-- set_background_video (lines 41-44). -/
def set_background_video (b : Builder) (file_path : String) : Builder :=
  { b with background := some (Background.video file_path) }

/-- set_audio (lines 46-49). -/
def set_audio (b : Builder) (file_path : String) : Builder :=
  { b with audio_file := some file_path }

/-- set_captions (lines 51-66): stores the dict with the "file" key
bound to the positional argument, then merges the config dict over it,
so a "file" key in the config wins (line 64 spreads config last). -/
def set_captions (b : Builder) (file_path : Option String)
    (config : Option CaptionConfig) : Builder :=
  { b with
      captions := some { file := (match (config.getD ⟨none⟩).file with
                                  | some v => v
                                  | none => file_path) } }

/-- set_output_path (lines 68-71). -/
def set_output_path (b : Builder) (output_path : String) : Builder :=
  { b with output_path := output_path }

/-- The validation rules at the start of build_command (lines 75-94),
evaluated in order.  The fourth rule (video background without audio and
without captions, lines 87-94) is unreachable: its condition is already
caught by the second rule. -/
def validate (b : Builder) : Option Err :=
  if b.background = none then
    some (.invalidConfiguration "Background must be set (image or video).")
  else if strTruthy b.audio_file = false ∧ b.captions = none then
    some (.invalidConfiguration "At least one of audio_file, or captions must be provided.")
  else if Option.map Background.typeStr b.background = some "image" ∧ strTruthy b.audio_file = false then
    some (.invalidConfiguration "Audio file must be provided if background is an image.")
  else if Option.map Background.typeStr b.background = some "video" ∧ strTruthy b.audio_file = false ∧ b.captions = none then
    some (.invalidConfiguration "Audio file or captions must be provided if background is a video.")
  else none

/-- The audio-duration resolution step of build_command (lines 96-106):
no query when audio is unset; with audio set, the media inspector must
be attached and must report a truthy (non-zero, non-absent) duration. -/
def resolve_duration (b : Builder) : Except Err (Option ℚ) :=
  if strTruthy b.audio_file then
    match b.media_utils with
    | none =>
      Except.error (.missingCollaborator "Media manager must be set to determine audio duration.")
    | some media_utils =>
      let audio_duration := media_utils (b.audio_file.getD "")
      if ratOptTruthy audio_duration = false then
        Except.error (.durationUnavailable "Could not determine audio duration")
      else
        Except.ok audio_duration
  else
    Except.ok none

/-- The zoom_expressions dict (lines 126-130), as the lookup function it
is used as; the default branch is unreachable (the code only ever looks
up the key zoom-to-top-left, line 131). -/
def zoom_expressions (fmt : ℚ → String) (zoom_factor : ℚ) (key : String) : String :=
  match key with
  | "zoom-to-top" => "z=\x27zoom+" ++ fmt zoom_factor ++ "\x27:x=iw/2-(iw/zoom/2):y=0"
  | "zoom-to-center" => "z=\x27zoom+" ++ fmt zoom_factor ++ "\x27:x=iw/2-(iw/zoom/2):y=ih/2-(ih/zoom/2)"
  | "zoom-to-top-left" => "z=\x27zoom+" ++ fmt zoom_factor ++ "\x27:x=0:y=0"
  | _ => ""

/-- The input declarations emitted for the background (lines 116-118 for
an image, 143-155 for a video).  For an image the input loops for the
audio duration; for a video the input loops indefinitely and is cut at
the audio duration when one is known, else it is a plain -i input. -/
def background_args (fmt : ℚ → String) (bg : Background) (audio_duration : Option ℚ) : List String :=
  match bg with
  | .image file _ => ["-loop", "1", "-t", fmtOpt fmt audio_duration, "-i", file]
  | .video file =>
    if ratOptTruthy audio_duration then
      ["-stream_loop", "-1", "-t", fmtOpt fmt audio_duration, "-i", file]
    else
      ["-i", file]

/-- The single filter stage emitted for the background (lines 120-140
for an image, 156 for a video), labelled bg.  input_index is 0 at this
point (line 112).  In the image branch audio_duration is provably set
(validation requires audio for an image background); the getD 0 default
stands for the TypeError Python would raise on that unreachable path. -/
def background_filter (fmt : ℚ → String) (w h : ℤ) (bg : Background) (audio_duration : Option ℚ) : String :=
  let input_index : ℕ := 0
  match bg with
  | .image _ ken_burns =>
    let zoom_factor := ken_burns.zoom_factor.getD (1/1000 : ℚ)
    let zoom_expr := zoom_expressions fmt zoom_factor "zoom-to-top-left"
    let fps : ℕ := 25
    let duration_frames : ℤ := pyInt ((audio_duration.getD 0) * (fps : ℚ))
    let zoompan_d : ℤ := duration_frames + 1
    "[" ++ toString input_index ++ "]scale=" ++ toString w ++ ":-2,setsar=1:1," ++
      "crop=" ++ toString w ++ ":" ++ toString h ++ "," ++
      "zoompan=" ++ zoom_expr ++ ":d=" ++ toString zoompan_d ++
      ":s=" ++ toString w ++ "x" ++ toString h ++ ":fps=" ++ toString fps ++ "[bg]"
  | .video _ =>
    "[" ++ toString input_index ++ "]scale=" ++ toString w ++ ":" ++ toString h ++ "[bg]"

/-- The caption step (lines 168-178), acting on the running stream label
current_video (equal to [bg] when reached): with a caption record
carrying a truthy file, append a subtitles stage and rename to [v];
with a caption record without a file, append nothing and keep the label;
with no caption record, append a pass-through copy stage renaming [bg]
to [v].  Returns the appended filter stages and the final label. -/
def caption_stage (captions : Option Captions) (current_video : String) : List String × String :=
  match captions with
  | some caps =>
    let subtitle_file := caps.file
    if strTruthy subtitle_file then
      ([current_video ++ "subtitles=" ++ subtitle_file.getD "" ++ "[v]"], "[v]")
    else
      ([], current_video)
  | none =>
    if current_video == "[bg]" then
      (["[bg]copy[v]"], "[v]")
    else
      ([], current_video)

/-- Python ";".join, used to combine the filter parts (line 182). -/
def join_semicolon : List String → String
  | [] => ""
  | [s] => s
  | s :: s2 :: rest => s ++ ";" ++ join_semicolon (s2 :: rest)

/-- The ordered list of filter stages (lines 111, 136-140, 156, 169-178):
the background stage followed by whatever the caption step appends. -/
def filter_parts_of (fmt : ℚ → String) (b : Builder) (bg : Background) (audio_duration : Option ℚ) : List String :=
  [background_filter fmt b.width b.height bg audio_duration] ++ (caption_stage b.captions "[bg]").1

/-- The argument sequencing of build_command after validation and
duration resolution (lines 108-201).  The audio input, when present,
always has input index 1 (the background consumed index 0, line 158). -/
def assemble (fmt : ℚ → String) (b : Builder) (bg : Background) (audio_duration : Option ℚ) : List String :=
  let cmd0 := [b.ffmpeg_path, "-y"]
  let bgArgs := background_args fmt bg audio_duration
  let audio_input_index : ℕ := 1
  let audioArgs := if strTruthy b.audio_file then ["-i", b.audio_file.getD ""] else []
  let filter_parts := filter_parts_of fmt b bg audio_duration
  let filterArgs :=
    if filter_parts.isEmpty then [] else ["-filter_complex", join_semicolon filter_parts]
  let mapArgs :=
    ["-map", (caption_stage b.captions "[bg]").2] ++
      (if strTruthy b.audio_file then ["-map", toString audio_input_index ++ ":a"] else [])
  let vcodecArgs := ["-c:v", "libx264", "-preset", "ultrafast", "-crf", "23", "-pix_fmt", "yuv420p"]
  let acodecArgs :=
    if strTruthy b.audio_file then
      ["-c:a", "aac", "-b:a", "192k"] ++
        (if ratOptTruthy audio_duration then ["-t", fmtOpt fmt audio_duration] else [])
    else []
  cmd0 ++ bgArgs ++ audioArgs ++ filterArgs ++ mapArgs ++ vcodecArgs ++ acodecArgs ++ [b.output_path]

/-- build_command (lines 73-201): validation, duration resolution, then
argument sequencing.  The inner none branch for the background is
unreachable (validation has already required a background). -/
def build_command (fmt : ℚ → String) (b : Builder) : Except Err (List String) :=
  match validate b with
  | some e => Except.error e
  | none =>
    match b.background with
    | none => Except.error (.invalidConfiguration "Background must be set (image or video).")
    | some bg =>
      match resolve_duration b with
      | .error e => Except.error e
      | .ok audio_duration => Except.ok (assemble fmt b bg audio_duration)

/-- build_command as a state transformer on the builder: the method
reads but never assigns any attribute of self (lines 73-201), so the
post-state is the input state. -/
def build_command_run (fmt : ℚ → String) (b : Builder) : Except Err (List String) × Builder :=
  (build_command fmt b, b)

/-- A boolean well-formedness test on the dimensions argument: a tuple
of length exactly two.  This is the only shape the constructor checks. -/
def dimsWellFormedPair : DimArg → Bool
  | .notTuple => false
  | .tuple es => es.length == 2

/-- mid occurs contiguously inside s. -/
def StrContains (s mid : String) : Prop := ∃ a b, s = a ++ (mid ++ b)

/-- mid occurs contiguously, in order, inside the token list l. -/
def tokensWithin (mid l : List String) : Prop := ∃ a b, l = a ++ (mid ++ b)

/-- Shared concrete format function for witnesses. -/
def fmt0 : ℚ → String := fun q => toString q

/-- Concrete builder for the C3 witness: video background with audio but
no media inspector attached. -/
def C3b : Builder :=
  { width := 1280, height := 720, ffmpeg_path := "ffmpeg",
    background := some (Background.video "clip.mp4"),
    audio_file := some "voice.mp3", captions := none,
    output_path := "output.mp4", media_utils := none }

/-- Concrete builder for the C10 witness. -/
def C10b : Builder :=
  { width := 1280, height := 720, ffmpeg_path := "ffmpeg", background := none,
    audio_file := none, captions := none, output_path := "output.mp4",
    media_utils := none }

/-- Concrete builder for the C6 witness: video background, captions set
without a file. -/
def C6b : Builder :=
  { width := 1280, height := 720, ffmpeg_path := "ffmpeg",
    background := some (Background.video "clip.mp4"),
    audio_file := none, captions := some { file := none },
    output_path := "output.mp4", media_utils := none }

/-- Concrete builder for the C7 witness: video background with audio and
no captions. -/
def C7b : Builder :=
  { width := 1280, height := 720, ffmpeg_path := "ffmpeg",
    background := some (Background.video "clip.mp4"),
    audio_file := some "voice.mp3", captions := none,
    output_path := "output.mp4", media_utils := some (fun _ => some 10) }

/-- Concrete builder for the C8 witness: video background, captions with
a file, no audio. -/
def C8b : Builder :=
  { width := 1280, height := 720, ffmpeg_path := "ffmpeg",
    background := some (Background.video "clip.mp4"),
    audio_file := none, captions := some { file := some "subs.srt" },
    output_path := "output.mp4", media_utils := none }

/-- Concrete builder for the C4 witness: image background, audio with
inspector-reported duration 10. -/
def C4b : Builder :=
  { width := 1080, height := 1920, ffmpeg_path := "ffmpeg",
    background := some (Background.image "bg.jpg" ⟨none, none⟩),
    audio_file := some "voice.mp3", captions := none,
    output_path := "output.mp4", media_utils := some (fun _ => some 10) }

/-- The command build_command produces for C4b under fmt0. -/
def C4cmd : List String :=
  assemble fmt0 C4b (Background.image "bg.jpg" ⟨none, none⟩) (some 10)

end VB

namespace VB

/-- A validation failure aborts build_command with that error. -/
theorem build_command_error_of_validate (fmt : ℚ → String) (b : Builder) (e : Err)
    (h : validate b = some e) : build_command fmt b = Except.error e := by
  unfold build_command
  rw [h]

/-- When validation passes, a background is set. -/
theorem validate_none_bg (b : Builder) (hv : validate b = none) :
    ∃ bg, b.background = some bg := by
  cases hbg : b.background with
  | some bg => exact ⟨bg, rfl⟩
  | none =>
    unfold validate at hv
    rw [if_pos hbg] at hv
    simp at hv

/-- Duration resolution only fails with the collaborator or duration
error kinds, never with invalidConfiguration. -/
theorem resolve_duration_error_kind (b : Builder) (e : Err)
    (h : resolve_duration b = Except.error e) :
    (∃ m, e = Err.missingCollaborator m) ∨ (∃ m, e = Err.durationUnavailable m) := by
  unfold resolve_duration at h
  split at h
  · split at h
    · simp at h
      exact Or.inl ⟨_, h.symm⟩
    · simp only [] at h
      split at h
      · simp at h
        exact Or.inr ⟨_, h.symm⟩
      · simp at h
  · simp at h

/-- Inversion of a successful build: validation passed, the background
is set, the duration resolved and the result is the sequenced command. -/
theorem build_command_ok_elim (fmt : ℚ → String) (b : Builder) (cmd : List String)
    (h : build_command fmt b = Except.ok cmd) :
    ∃ bg audio_duration, b.background = some bg ∧ validate b = none ∧
      resolve_duration b = Except.ok audio_duration ∧
      cmd = assemble fmt b bg audio_duration := by
  unfold build_command at h
  cases hv : validate b with
  | some e => rw [hv] at h; simp at h
  | none =>
    rw [hv] at h
    cases hbg : b.background with
    | none => rw [hbg] at h; simp at h
    | some bg =>
      rw [hbg] at h
      cases hr : resolve_duration b with
      | error e => rw [hr] at h; simp at h
      | ok dur =>
        rw [hr] at h
        simp at h
        exact ⟨bg, dur, rfl, rfl, rfl, h.symm⟩

/-- build_command fails with the invalidConfiguration kind exactly when
validation fails with it, with the same message. -/
theorem build_command_invalid_iff (fmt : ℚ → String) (b : Builder) (m : String) :
    build_command fmt b = Except.error (Err.invalidConfiguration m) ↔
      validate b = some (Err.invalidConfiguration m) := by
  constructor
  · intro h
    unfold build_command at h
    cases hv : validate b with
    | some e => rw [hv] at h; simp at h; rw [h]
    | none =>
      exfalso
      rw [hv] at h
      cases hbg : b.background with
      | none =>
        obtain ⟨bg, hbg2⟩ := validate_none_bg b hv
        rw [hbg] at hbg2
        simp at hbg2
      | some bg =>
        rw [hbg] at h
        cases hr : resolve_duration b with
        | error e =>
          rw [hr] at h
          simp at h
          rcases resolve_duration_error_kind b e hr with ⟨m2, hm2⟩ | ⟨m2, hm2⟩ <;>
            rw [hm2] at h <;> simp at h
        | ok dur => rw [hr] at h; simp at h
  · intro h
    exact build_command_error_of_validate fmt b _ h

/-- Characterisation of each validation rule by its message, plus the
overall condition for an invalidConfiguration validation failure. -/
theorem validate_cases (b : Builder) :
    (validate b = some (Err.invalidConfiguration "Background must be set (image or video).") ↔
      b.background = none)
    ∧ (validate b = some (Err.invalidConfiguration "At least one of audio_file, or captions must be provided.") ↔
      (b.background ≠ none ∧ strTruthy b.audio_file = false ∧ b.captions = none))
    ∧ (validate b = some (Err.invalidConfiguration "Audio file must be provided if background is an image.") ↔
      (Option.map Background.typeStr b.background = some "image" ∧ strTruthy b.audio_file = false ∧ b.captions ≠ none))
    ∧ ((∃ m, validate b = some (Err.invalidConfiguration m)) ↔
      (b.background = none
        ∨ (strTruthy b.audio_file = false ∧ b.captions = none)
        ∨ (Option.map Background.typeStr b.background = some "image" ∧ strTruthy b.audio_file = false))) := by
  by_cases h1 : b.background = none
  · refine ⟨by simp [validate, h1], ?_, ?_, ?_⟩
    · simp [validate, h1]
    · simp [validate, h1]
    · simp [validate, h1]
  · obtain ⟨bg0, hbg⟩ : ∃ bg0, b.background = some bg0 := by
      cases hb : b.background with
      | none => exact absurd hb h1
      | some x => exact ⟨x, rfl⟩
    cases haf : strTruthy b.audio_file <;>
      by_cases h2 : b.captions = none <;>
      cases bg0 <;>
      simp [validate, hbg, haf, h2, Background.typeStr]

/-- C1: build_command raises invalidConfiguration exactly when one of
the first three validation rules fails, checked in order: background
unset; audio and captions both unset; image background without audio.
Each rule is identified by its message, and in every failing case the
result is an error, not a command. -/
theorem C1_invalid_configuration_cases (fmt : ℚ → String) (b : Builder) :
    ((∃ m, build_command fmt b = Except.error (Err.invalidConfiguration m)) ↔
      (b.background = none
        ∨ (strTruthy b.audio_file = false ∧ b.captions = none)
        ∨ (Option.map Background.typeStr b.background = some "image" ∧ strTruthy b.audio_file = false)))
    ∧ (build_command fmt b = Except.error (Err.invalidConfiguration "Background must be set (image or video).") ↔
      b.background = none)
    ∧ (build_command fmt b = Except.error (Err.invalidConfiguration "At least one of audio_file, or captions must be provided.") ↔
      (b.background ≠ none ∧ strTruthy b.audio_file = false ∧ b.captions = none))
    ∧ (build_command fmt b = Except.error (Err.invalidConfiguration "Audio file must be provided if background is an image.") ↔
      (Option.map Background.typeStr b.background = some "image" ∧ strTruthy b.audio_file = false ∧ b.captions ≠ none)) := by
  obtain ⟨hc1, hc2, hc3, hc4⟩ := validate_cases b
  refine ⟨?_, ?_, ?_, ?_⟩
  · constructor
    · rintro ⟨m, hm⟩
      exact hc4.mp ⟨m, (build_command_invalid_iff fmt b m).mp hm⟩
    · intro h
      obtain ⟨m, hm⟩ := hc4.mpr h
      exact ⟨m, (build_command_invalid_iff fmt b m).mpr hm⟩
  · exact (build_command_invalid_iff fmt b _).trans hc1
  · exact (build_command_invalid_iff fmt b _).trans hc2
  · exact (build_command_invalid_iff fmt b _).trans hc3

/-- C2 counterexample: a (0, 0) dimensions pair is accepted by the
constructor, contradicting the claim that a pair containing a zero or
negative component fails with invalidConfiguration. -/
theorem C2_counterexample_zero_pair_accepted :
    mkVideoBuilder (DimArg.tuple [0, 0]) "ffmpeg"
      = Except.ok { width := 0, height := 0, ffmpeg_path := "ffmpeg",
                    background := none, audio_file := none, captions := none,
                    output_path := "output.mp4", media_utils := none } := rfl

/-- C2 amended: constructing the builder fails with invalidConfiguration
exactly when the dimensions argument is not a pair (a tuple of length
two); positivity of the components is not checked, so pairs with zero or
negative components are accepted. -/
theorem C2_constructor_rejects_exactly_non_pairs (dimensions : DimArg) (ffmpeg_path : String) :
    ((∃ m, mkVideoBuilder dimensions ffmpeg_path = Except.error (Err.invalidConfiguration m)) ↔
      dimsWellFormedPair dimensions = false)
    ∧ ((mkVideoBuilder dimensions ffmpeg_path).isOk = true ↔ dimsWellFormedPair dimensions = true) := by
  cases dimensions with
  | notTuple => simp [mkVideoBuilder, dimsWellFormedPair, Except.isOk, Except.toBool]
  | tuple es =>
    match es with
    | [] => simp [mkVideoBuilder, dimsWellFormedPair, Except.isOk, Except.toBool]
    | [a] => simp [mkVideoBuilder, dimsWellFormedPair, Except.isOk, Except.toBool]
    | [a, b] => simp [mkVideoBuilder, dimsWellFormedPair, Except.isOk, Except.toBool]
    | a :: b :: c :: rest => simp [mkVideoBuilder, dimsWellFormedPair, Except.isOk, Except.toBool]

end VB

namespace VB

/-- When validation passes and duration resolution fails, build_command
fails with that same error. -/
theorem build_command_error_of_resolve (fmt : ℚ → String) (b : Builder) (e : Err)
    (hv : validate b = none) (hr : resolve_duration b = Except.error e) :
    build_command fmt b = Except.error e := by
  obtain ⟨bg, hbg⟩ := validate_none_bg b hv
  unfold build_command
  rw [hv, hbg, hr]

/-- When validation passes and the duration resolves, build_command
returns the sequenced command. -/
theorem build_command_ok_of_resolve (fmt : ℚ → String) (b : Builder) (bg : Background)
    (dur : Option ℚ) (hv : validate b = none) (hbg : b.background = some bg)
    (hr : resolve_duration b = Except.ok dur) :
    build_command fmt b = Except.ok (assemble fmt b bg dur) := by
  unfold build_command
  rw [hv, hbg, hr]

/-- With audio set and no media inspector, duration resolution fails
with missingCollaborator. -/
theorem resolve_duration_missing (b : Builder) (ha : strTruthy b.audio_file = true)
    (hmu : b.media_utils = none) :
    resolve_duration b
      = Except.error (Err.missingCollaborator "Media manager must be set to determine audio duration.") := by
  simp [resolve_duration, ha, hmu]

/-- With audio set and an inspector reporting a falsy duration, duration
resolution fails with durationUnavailable. -/
theorem resolve_duration_unavailable (b : Builder) (media_utils : MediaUtils)
    (ha : strTruthy b.audio_file = true) (hmu : b.media_utils = some media_utils)
    (hd : ratOptTruthy (media_utils (b.audio_file.getD "")) = false) :
    resolve_duration b
      = Except.error (Err.durationUnavailable "Could not determine audio duration") := by
  simp [resolve_duration, ha, hmu, hd]

/-- With audio set and an inspector reporting a truthy duration,
duration resolution returns that duration. -/
theorem resolve_duration_ok (b : Builder) (media_utils : MediaUtils)
    (ha : strTruthy b.audio_file = true) (hmu : b.media_utils = some media_utils)
    (hd : ratOptTruthy (media_utils (b.audio_file.getD "")) = true) :
    resolve_duration b = Except.ok (media_utils (b.audio_file.getD "")) := by
  simp [resolve_duration, ha, hmu, hd]

/-- A positive duration is truthy. -/
theorem ratOptTruthy_of_pos (d : ℚ) (h : 0 < d) : ratOptTruthy (some d) = true := by
  simp [ratOptTruthy]
  exact h.ne'

/-- C3: on a specification that passes validation with an audio file
set, assembly fails with missingCollaborator when no media inspector is
attached; otherwise it fails with durationUnavailable, a kind distinct
from invalidConfiguration and missingCollaborator, when the inspector
reports an absent or zero duration; and when a positive duration is
reported it proceeds past the check and succeeds. -/
theorem C3_audio_duration_resolution (fmt : ℚ → String) (b : Builder)
    (hv : validate b = none) (ha : strTruthy b.audio_file = true) :
    (b.media_utils = none →
      build_command fmt b
        = Except.error (Err.missingCollaborator "Media manager must be set to determine audio duration."))
    ∧ (∀ media_utils : MediaUtils, b.media_utils = some media_utils →
        ratOptTruthy (media_utils (b.audio_file.getD "")) = false →
        build_command fmt b
          = Except.error (Err.durationUnavailable "Could not determine audio duration"))
    ∧ (∀ (media_utils : MediaUtils) (d : ℚ), b.media_utils = some media_utils →
        media_utils (b.audio_file.getD "") = some d → 0 < d →
        (build_command fmt b).isOk = true)
    ∧ (∀ m1 m2 m3, Err.durationUnavailable m1 ≠ Err.invalidConfiguration m2
        ∧ Err.durationUnavailable m1 ≠ Err.missingCollaborator m3) := by
  refine ⟨?_, ?_, ?_, ?_⟩
  · intro hmu
    exact build_command_error_of_resolve fmt b _ hv (resolve_duration_missing b ha hmu)
  · intro media_utils hmu hd
    exact build_command_error_of_resolve fmt b _ hv (resolve_duration_unavailable b media_utils ha hmu hd)
  · intro media_utils d hmu hd hpos
    obtain ⟨bg, hbg⟩ := validate_none_bg b hv
    have hr : resolve_duration b = Except.ok (some d) := by
      have := resolve_duration_ok b media_utils ha hmu (by rw [hd]; exact ratOptTruthy_of_pos d hpos)
      rw [hd] at this
      exact this
    rw [build_command_ok_of_resolve fmt b bg (some d) hv hbg hr]
    rfl
  · intro m1 m2 m3
    exact ⟨by simp, by simp⟩

/-- C3 witness: the hypotheses are satisfiable and the collaborator
error is produced on a concrete builder. -/
theorem C3_audio_duration_resolution_witness :
    build_command fmt0 C3b
      = Except.error (Err.missingCollaborator "Media manager must be set to determine audio duration.") :=
  (C3_audio_duration_resolution fmt0 C3b rfl rfl).1 rfl

/-- C9: build_command does not mutate the builder: the post-state equals
the input state, and a second call on the post-state yields the same
result as the first.  Purity is inherited from the source, which reads
but never assigns any attribute of self; the media inspector is a fixed
function of the path by construction. -/
theorem C9_idempotent_no_mutation (fmt : ℚ → String) (b : Builder) :
    (build_command_run fmt b).2 = b
    ∧ (build_command_run fmt (build_command_run fmt b).2).1 = (build_command_run fmt b).1 :=
  ⟨rfl, rfl⟩

/-- C10: when the config dict passed to set_captions itself carries a
"file" key, the merge order makes that value override the positional
file_path argument, and the caption step of build_command (subtitle
stage versus no stage, and the subtitle file used) is determined by the
overriding value. -/
theorem C10_config_file_overrides_positional (b : Builder) (file_path : Option String)
    (config : CaptionConfig) (v : Option String) (h : config.file = some v) :
    (set_captions b file_path (some config)).captions = some { file := v }
    ∧ caption_stage (set_captions b file_path (some config)).captions "[bg]"
      = (if strTruthy v then (["[bg]subtitles=" ++ v.getD "" ++ "[v]"], "[v]")
         else ([], "[bg]")) := by
  have hc : (set_captions b file_path (some config)).captions = some { file := v } := by
    simp [set_captions, h]
  refine ⟨hc, ?_⟩
  rw [hc]
  cases hv : strTruthy v with
  | false => simp [caption_stage, hv]
  | true => simp [caption_stage, hv]

/-- C10 witness: with a positional subtitle path and a config carrying a
different "file" value, the stored caption record holds the config
value. -/
theorem C10_config_file_overrides_positional_witness :
    (set_captions C10b (some "positional.srt") (some ⟨some (some "override.srt")⟩)).captions
      = some { file := some "override.srt" } :=
  (C10_config_file_overrides_positional C10b (some "positional.srt")
    ⟨some (some "override.srt")⟩ (some "override.srt") rfl).1

end VB

namespace VB

/-- The sequenced command, written as one flat concatenation (the
audio-map token "1:a" folded from the constant audio input index). -/
theorem assemble_eq (fmt : ℚ → String) (b : Builder) (bg : Background) (dur : Option ℚ) :
    assemble fmt b bg dur
      = [b.ffmpeg_path, "-y"] ++ background_args fmt bg dur
        ++ (if strTruthy b.audio_file then ["-i", b.audio_file.getD ""] else [])
        ++ ["-filter_complex", join_semicolon (filter_parts_of fmt b bg dur)]
        ++ ["-map", (caption_stage b.captions "[bg]").2]
        ++ (if strTruthy b.audio_file then ["-map", "1:a"] else [])
        ++ ["-c:v", "libx264", "-preset", "ultrafast", "-crf", "23", "-pix_fmt", "yuv420p"]
        ++ (if strTruthy b.audio_file then
              ["-c:a", "aac", "-b:a", "192k"]
                ++ (if ratOptTruthy dur then ["-t", fmtOpt fmt dur] else [])
            else [])
        ++ [b.output_path] := by
  unfold assemble
  simp [filter_parts_of, List.append_assoc, show toString (1 : ℕ) ++ ":a" = "1:a" from rfl]

/-- The video-stream mapping token pair occurs in the sequenced command,
carrying the label produced by the caption step. -/
theorem assemble_map_pair (fmt : ℚ → String) (b : Builder) (bg : Background) (dur : Option ℚ) :
    tokensWithin ["-map", (caption_stage b.captions "[bg]").2] (assemble fmt b bg dur) := by
  rw [assemble_eq]
  refine ⟨[b.ffmpeg_path, "-y"] ++ background_args fmt bg dur
      ++ (if strTruthy b.audio_file then ["-i", b.audio_file.getD ""] else [])
      ++ ["-filter_complex", join_semicolon (filter_parts_of fmt b bg dur)],
    (if strTruthy b.audio_file then ["-map", "1:a"] else [])
      ++ ["-c:v", "libx264", "-preset", "ultrafast", "-crf", "23", "-pix_fmt", "yuv420p"]
      ++ (if strTruthy b.audio_file then
            ["-c:a", "aac", "-b:a", "192k"]
              ++ (if ratOptTruthy dur then ["-t", fmtOpt fmt dur] else [])
          else [])
      ++ [b.output_path], ?_⟩
  simp [List.append_assoc]

/-- C6: on a successful build whose caption record carries no (truthy)
file, the caption step appends no subtitle stage and no rename stage,
and the stream label handed to the video mapping flag is bg, not v. -/
theorem C6_caption_without_file (fmt : ℚ → String) (b : Builder) (caps : Captions)
    (cmd : List String) (hcap : b.captions = some caps)
    (hfile : strTruthy caps.file = false) (hok : build_command fmt b = Except.ok cmd) :
    caption_stage b.captions "[bg]" = ([], "[bg]")
    ∧ tokensWithin ["-map", "[bg]"] cmd
    ∧ ("[bg]" : String) ≠ "[v]" := by
  have hcs : caption_stage b.captions "[bg]" = ([], "[bg]") := by
    rw [hcap]
    simp [caption_stage, hfile]
  obtain ⟨bg, dur, hbg, hv, hr, hcmd⟩ := build_command_ok_elim fmt b cmd hok
  refine ⟨hcs, ?_, by decide⟩
  rw [hcmd]
  have hmap := assemble_map_pair fmt b bg dur
  have h2 : (caption_stage b.captions "[bg]").2 = "[bg]" := by rw [hcs]
  rw [h2] at hmap
  exact hmap

/-- C6 witness: on a concrete builder the caption step appends nothing
and the concrete command maps bg. -/
theorem C6_caption_without_file_witness :
    caption_stage C6b.captions "[bg]" = ([], "[bg]")
    ∧ tokensWithin ["-map", "[bg]"]
        ["ffmpeg", "-y", "-i", "clip.mp4", "-filter_complex", "[0]scale=1280:720[bg]",
         "-map", "[bg]", "-c:v", "libx264", "-preset", "ultrafast", "-crf", "23",
         "-pix_fmt", "yuv420p", "output.mp4"] := by
  have h := C6_caption_without_file fmt0 C6b { file := none }
    ["ffmpeg", "-y", "-i", "clip.mp4", "-filter_complex", "[0]scale=1280:720[bg]",
     "-map", "[bg]", "-c:v", "libx264", "-preset", "ultrafast", "-crf", "23",
     "-pix_fmt", "yuv420p", "output.mp4"] rfl rfl rfl
  exact ⟨h.1, h.2.1⟩

/-- The background filter stage is never the pass-through copy stage
(their second characters already differ). -/
theorem background_filter_ne_copy (fmt : ℚ → String) (w h : ℤ) (bg : Background)
    (dur : Option ℚ) : background_filter fmt w h bg dur ≠ "[bg]copy[v]" := by
  intro hcontra
  cases bg with
  | image f kb =>
    have hd := congrArg String.data hcontra
    simp [background_filter, String.data_append,
      show toString (0 : ℕ) = "0" from rfl] at hd
  | video f =>
    have hd := congrArg String.data hcontra
    simp [background_filter, String.data_append,
      show toString (0 : ℕ) = "0" from rfl] at hd

/-- C7: on a successful build with no caption record at all, the caption
step appends exactly the pass-through copy stage renaming bg to v, the
filter graph contains that stage exactly once, and the video mapping
selects v. -/
theorem C7_no_captions_copy_stage (fmt : ℚ → String) (b : Builder) (cmd : List String)
    (hcap : b.captions = none) (hok : build_command fmt b = Except.ok cmd) :
    caption_stage b.captions "[bg]" = (["[bg]copy[v]"], "[v]")
    ∧ (∀ bg dur, (filter_parts_of fmt b bg dur).count "[bg]copy[v]" = 1)
    ∧ tokensWithin ["-map", "[v]"] cmd := by
  have hcs : caption_stage b.captions "[bg]" = (["[bg]copy[v]"], "[v]") := by
    rw [hcap]
    simp [caption_stage]
  refine ⟨hcs, ?_, ?_⟩
  · intro bg dur
    unfold filter_parts_of
    rw [hcs]
    simp [List.count_cons, background_filter_ne_copy fmt b.width b.height bg dur,
      Ne.symm (background_filter_ne_copy fmt b.width b.height bg dur)]
  · obtain ⟨bg, dur, hbg, hv, hr, hcmd⟩ := build_command_ok_elim fmt b cmd hok
    rw [hcmd]
    have hmap := assemble_map_pair fmt b bg dur
    have h2 : (caption_stage b.captions "[bg]").2 = "[v]" := by rw [hcs]
    rw [h2] at hmap
    exact hmap

/-- C7 witness: on a concrete builder the copy stage appears exactly
once in the filter graph and the caption step renames bg to v. -/
theorem C7_no_captions_copy_stage_witness :
    caption_stage C7b.captions "[bg]" = (["[bg]copy[v]"], "[v]")
    ∧ (filter_parts_of fmt0 C7b (Background.video "clip.mp4") (some 10)).count "[bg]copy[v]" = 1 := by
  have h := C7_no_captions_copy_stage fmt0 C7b
    ["ffmpeg", "-y", "-stream_loop", "-1", "-t", "10", "-i", "clip.mp4", "-i", "voice.mp3",
     "-filter_complex", "[0]scale=1280:720[bg];[bg]copy[v]", "-map", "[v]", "-map", "1:a",
     "-c:v", "libx264", "-preset", "ultrafast", "-crf", "23", "-pix_fmt", "yuv420p",
     "-c:a", "aac", "-b:a", "192k", "-t", "10", "output.mp4"] rfl rfl
  exact ⟨h.1, h.2.1 (Background.video "clip.mp4") (some 10)⟩

/-- C8: for a video background, a known audio duration d yields an input
declared with an indefinite stream-loop flag and an input duration flag
equal to the formatting of d; no audio yields a plain -i declaration;
the only background filter stage is a hard scale to width:height; and
with no audio the full command carries no audio mapping and no audio
codec flags. -/
theorem C8_video_background (fmt : ℚ → String) (b : Builder) (f : String)
    (hbg : b.background = some (Background.video f)) :
    (∀ d : ℚ, (d == 0) = false →
      background_args fmt (Background.video f) (some d)
        = ["-stream_loop", "-1", "-t", fmt d, "-i", f])
    ∧ background_args fmt (Background.video f) none = ["-i", f]
    ∧ (∀ dur, background_filter fmt b.width b.height (Background.video f) dur
        = "[0]scale=" ++ toString b.width ++ ":" ++ toString b.height ++ "[bg]")
    ∧ (∀ cmd, strTruthy b.audio_file = false → build_command fmt b = Except.ok cmd →
        cmd = [b.ffmpeg_path, "-y", "-i", f, "-filter_complex",
               join_semicolon (filter_parts_of fmt b (Background.video f) none),
               "-map", (caption_stage b.captions "[bg]").2,
               "-c:v", "libx264", "-preset", "ultrafast", "-crf", "23", "-pix_fmt", "yuv420p",
               b.output_path]) := by
  refine ⟨?_, ?_, ?_, ?_⟩
  · intro d hd
    simp [background_args, ratOptTruthy, hd, fmtOpt]
  · simp [background_args, ratOptTruthy]
  · intro dur
    apply String.ext
    simp [background_filter, String.data_append, show toString (0 : ℕ) = "0" from rfl]
  · intro cmd haf hok
    obtain ⟨bg0, dur, hbg0, hv, hr, hcmd⟩ := build_command_ok_elim fmt b cmd hok
    rw [hbg] at hbg0
    obtain rfl : bg0 = Background.video f := (Option.some.inj hbg0).symm
    have hrn : resolve_duration b = Except.ok none := by
      simp [resolve_duration, haf]
    rw [hrn] at hr
    obtain rfl : dur = none := (Except.ok.inj hr).symm
    rw [hcmd, assemble_eq]
    simp [background_args, ratOptTruthy, haf]

/-- C8 witness: the background hypothesis holds on a concrete builder
and the plain no-audio input declaration is produced. -/
theorem C8_video_background_witness :
    C8b.background = some (Background.video "clip.mp4")
    ∧ background_args fmt0 (Background.video "clip.mp4") none = ["-i", "clip.mp4"] :=
  ⟨rfl, (C8_video_background fmt0 C8b "clip.mp4" rfl).2.1⟩

end VB

namespace VB

/-- On a nonnegative argument, Python int() truncation agrees with
floor. -/
theorem pyInt_nonneg (q : ℚ) (h : 0 ≤ q) : pyInt q = ⌊q⌋ := by
  unfold pyInt
  rw [if_pos h]

/-- When validation passes on an image background, the audio file is
set (truthy): rules 2 and 3 together force it. -/
theorem audio_truthy_of_image (b : Builder) (f : String) (kb : KenBurnsConfig)
    (hv : validate b = none) (hbg : b.background = some (Background.image f kb)) :
    strTruthy b.audio_file = true := by
  cases haf : strTruthy b.audio_file with
  | true => rfl
  | false =>
    exfalso
    cases hcap : b.captions with
    | none => simp [validate, hbg, haf, hcap, Background.typeStr] at hv
    | some c => simp [validate, hbg, haf, hcap, Background.typeStr] at hv

/-- Joining a nonempty list of filter stages starts with the first
stage. -/
theorem join_semicolon_head (a : String) (t : List String) :
    ∃ r, join_semicolon (a :: t) = a ++ r := by
  cases t with
  | nil =>
    refine ⟨"", ?_⟩
    apply String.ext
    simp [join_semicolon, String.data_append]
  | cons b bs =>
    refine ⟨";" ++ join_semicolon (b :: bs), ?_⟩
    apply String.ext
    simp [join_semicolon, String.data_append, List.append_assoc]

/-- Containment is preserved by appending on the right. -/
theorem strContains_append_right (s r mid : String) (h : StrContains s mid) :
    StrContains (s ++ r) mid := by
  obtain ⟨x, y, hxy⟩ := h
  refine ⟨x, y ++ r, ?_⟩
  rw [hxy]
  apply String.ext
  simp [String.data_append, List.append_assoc]

/-- The image background filter stage contains the zoompan
duration-in-frames declaration, delimited by its d= and s= keys. -/
theorem background_filter_image_contains_d (fmt : ℚ → String) (w h : ℤ) (f : String)
    (kb : KenBurnsConfig) (dur : Option ℚ) :
    StrContains (background_filter fmt w h (Background.image f kb) dur)
      (":d=" ++ toString (pyInt ((dur.getD 0) * 25) + 1) ++ ":s=") := by
  refine ⟨"[0]scale=" ++ toString w ++ ":-2,setsar=1:1,crop=" ++ toString w ++ ":" ++ toString h
      ++ ",zoompan=" ++ zoom_expressions fmt (kb.zoom_factor.getD (1/1000)) "zoom-to-top-left",
    toString w ++ "x" ++ toString h ++ ":fps=25[bg]", ?_⟩
  apply String.ext
  simp [background_filter, String.data_append, List.append_assoc, Nat.cast_ofNat,
    show toString (0 : ℕ) = "0" from rfl, show toString (25 : ℕ) = "25" from rfl]

/-- C4: on a successful build with an image background and a reported
audio duration d greater than 0, the image input carries the loop flag
and an input duration flag valued at the formatting of d; the zoompan
stage declares floor(d*25)+1 frames between its d= and s= keys; and the
output-duration cap -t with the same formatted value sits right after
the audio codec flags. -/
theorem C4_image_duration_propagation (fmt : ℚ → String) (b : Builder) (f : String)
    (kb : KenBurnsConfig) (media_utils : MediaUtils) (d : ℚ) (cmd : List String)
    (hbg : b.background = some (Background.image f kb))
    (hmu : b.media_utils = some media_utils)
    (hd : media_utils (b.audio_file.getD "") = some d)
    (hpos : 0 < d)
    (hok : build_command fmt b = Except.ok cmd) :
    tokensWithin ["-loop", "1", "-t", fmt d, "-i", f] cmd
    ∧ (∃ s, tokensWithin ["-filter_complex", s] cmd
        ∧ StrContains s (":d=" ++ toString (⌊d * 25⌋ + 1) ++ ":s="))
    ∧ tokensWithin ["-c:a", "aac", "-b:a", "192k", "-t", fmt d] cmd := by
  obtain ⟨bg0, dur, hbg0, hv, hr, hcmd⟩ := build_command_ok_elim fmt b cmd hok
  rw [hbg] at hbg0
  obtain rfl : bg0 = Background.image f kb := (Option.some.inj hbg0).symm
  have ha : strTruthy b.audio_file = true := audio_truthy_of_image b f kb hv hbg
  have hrt : ratOptTruthy (some d) = true := ratOptTruthy_of_pos d hpos
  have hrd : resolve_duration b = Except.ok (some d) := by
    have h1 := resolve_duration_ok b media_utils ha hmu (by rw [hd]; exact hrt)
    rw [hd] at h1
    exact h1
  rw [hrd] at hr
  obtain rfl : dur = some d := (Except.ok.inj hr).symm
  subst hcmd
  rw [assemble_eq]
  have hba : background_args fmt (Background.image f kb) (some d)
      = ["-loop", "1", "-t", fmt d, "-i", f] := by
    simp [background_args, fmtOpt]
  refine ⟨?_, ?_, ?_⟩
  · refine ⟨[b.ffmpeg_path, "-y"],
      (if strTruthy b.audio_file then ["-i", b.audio_file.getD ""] else [])
        ++ ["-filter_complex", join_semicolon (filter_parts_of fmt b (Background.image f kb) (some d))]
        ++ ["-map", (caption_stage b.captions "[bg]").2]
        ++ (if strTruthy b.audio_file then ["-map", "1:a"] else [])
        ++ ["-c:v", "libx264", "-preset", "ultrafast", "-crf", "23", "-pix_fmt", "yuv420p"]
        ++ (if strTruthy b.audio_file then
              ["-c:a", "aac", "-b:a", "192k"]
                ++ (if ratOptTruthy (some d) then ["-t", fmtOpt fmt (some d)] else [])
            else [])
        ++ [b.output_path], ?_⟩
    rw [hba]
    simp [List.append_assoc]
  · refine ⟨join_semicolon (filter_parts_of fmt b (Background.image f kb) (some d)), ?_, ?_⟩
    · refine ⟨[b.ffmpeg_path, "-y"] ++ background_args fmt (Background.image f kb) (some d)
          ++ (if strTruthy b.audio_file then ["-i", b.audio_file.getD ""] else []),
        ["-map", (caption_stage b.captions "[bg]").2]
          ++ (if strTruthy b.audio_file then ["-map", "1:a"] else [])
          ++ ["-c:v", "libx264", "-preset", "ultrafast", "-crf", "23", "-pix_fmt", "yuv420p"]
          ++ (if strTruthy b.audio_file then
                ["-c:a", "aac", "-b:a", "192k"]
                  ++ (if ratOptTruthy (some d) then ["-t", fmtOpt fmt (some d)] else [])
              else [])
          ++ [b.output_path], ?_⟩
      simp [List.append_assoc]
    · have hfp : filter_parts_of fmt b (Background.image f kb) (some d)
          = background_filter fmt b.width b.height (Background.image f kb) (some d)
            :: (caption_stage b.captions "[bg]").1 := by
        simp [filter_parts_of]
      obtain ⟨r, hjoin⟩ := join_semicolon_head
        (background_filter fmt b.width b.height (Background.image f kb) (some d))
        (caption_stage b.captions "[bg]").1
      rw [hfp, hjoin]
      have hc := background_filter_image_contains_d fmt b.width b.height f kb (some d)
      have e1 : pyInt (((some d : Option ℚ).getD 0) * 25) + 1 = ⌊d * 25⌋ + 1 := by
        have e0 : ((some d : Option ℚ).getD 0) = d := rfl
        rw [e0, pyInt_nonneg (d * 25) (by nlinarith)]
      rw [e1] at hc
      exact strContains_append_right _ r _ hc
  · refine ⟨[b.ffmpeg_path, "-y"] ++ background_args fmt (Background.image f kb) (some d)
        ++ (if strTruthy b.audio_file then ["-i", b.audio_file.getD ""] else [])
        ++ ["-filter_complex", join_semicolon (filter_parts_of fmt b (Background.image f kb) (some d))]
        ++ ["-map", (caption_stage b.captions "[bg]").2]
        ++ (if strTruthy b.audio_file then ["-map", "1:a"] else [])
        ++ ["-c:v", "libx264", "-preset", "ultrafast", "-crf", "23", "-pix_fmt", "yuv420p"],
      [b.output_path], ?_⟩
    simp [ha, hrt, fmtOpt, List.append_assoc]

end VB

namespace VB

/-- C4 witness: on the concrete builder the loop declaration and the
trailing output-duration cap both carry the formatted duration. -/
theorem C4_image_duration_propagation_witness :
    tokensWithin ["-loop", "1", "-t", fmt0 10, "-i", "bg.jpg"] C4cmd
    ∧ tokensWithin ["-c:a", "aac", "-b:a", "192k", "-t", fmt0 10] C4cmd := by
  have hok : build_command fmt0 C4b = Except.ok C4cmd :=
    build_command_ok_of_resolve fmt0 C4b (Background.image "bg.jpg" ⟨none, none⟩)
      (some 10) rfl rfl rfl
  have h := C4_image_duration_propagation fmt0 C4b "bg.jpg" ⟨none, none⟩
    (fun _ => some 10) 10 C4cmd rfl rfl rfl (by norm_num) hok
  exact ⟨h.1, h.2.2⟩

/-- Builders differing only in the stored pan/zoom record but agreeing
on its zoom_factor produce identical build_command results: the
direction entry is never read. -/
theorem build_command_image_config_congr (fmt : ℚ → String) (w h : ℤ) (fp f : String)
    (kb kb2 : KenBurnsConfig) (af : Option String) (caps : Option Captions)
    (op : String) (mu : Option MediaUtils) (hzf : kb2.zoom_factor = kb.zoom_factor) :
    build_command fmt ⟨w, h, fp, some (Background.image f kb2), af, caps, op, mu⟩
      = build_command fmt ⟨w, h, fp, some (Background.image f kb), af, caps, op, mu⟩ := by
  have hval : validate ⟨w, h, fp, some (Background.image f kb2), af, caps, op, mu⟩
      = validate ⟨w, h, fp, some (Background.image f kb), af, caps, op, mu⟩ := by
    simp [validate, Background.typeStr]
  have hres : resolve_duration ⟨w, h, fp, some (Background.image f kb2), af, caps, op, mu⟩
      = resolve_duration ⟨w, h, fp, some (Background.image f kb), af, caps, op, mu⟩ := rfl
  have hasm : ∀ dur,
      assemble fmt ⟨w, h, fp, some (Background.image f kb2), af, caps, op, mu⟩
          (Background.image f kb2) dur
        = assemble fmt ⟨w, h, fp, some (Background.image f kb), af, caps, op, mu⟩
          (Background.image f kb) dur := by
    intro dur
    simp [assemble, filter_parts_of, background_args, background_filter, hzf]
  unfold build_command
  rw [hval, hres]
  cases hvc : validate ⟨w, h, fp, some (Background.image f kb), af, caps, op, mu⟩ with
  | some e => rfl
  | none =>
    dsimp only
    cases hrc : resolve_duration ⟨w, h, fp, some (Background.image f kb), af, caps, op, mu⟩ with
    | error e => rfl
    | ok dur =>
      dsimp only
      rw [hasm dur]

/-- C5: for every image background the emitted zoompan expression is the
zoom-to-top-left form z=(quote)zoom+r(quote):x=0:y=0 where r is the
configured zoom_factor or the 0.001 default -- the requested direction
preset is never read -- and two builders differing only in the stored
pan/zoom record but agreeing on the zoom rate build identical
commands. -/
theorem C5_zoom_preset_ignored (fmt : ℚ → String) (w h : ℤ) (f : String)
    (kb : KenBurnsConfig) (dur : Option ℚ) :
    (background_filter fmt w h (Background.image f kb) dur
      = "[0]scale=" ++ toString w ++ ":-2,setsar=1:1,crop=" ++ toString w ++ ":"
        ++ toString h ++ ",zoompan=z=\x27zoom+" ++ fmt (kb.zoom_factor.getD (1/1000))
        ++ "\x27:x=0:y=0:d=" ++ toString (pyInt ((dur.getD 0) * 25) + 1)
        ++ ":s=" ++ toString w ++ "x" ++ toString h ++ ":fps=25[bg]")
    ∧ (∀ (b : Builder) (kb2 : KenBurnsConfig),
        b.background = some (Background.image f kb) →
        kb2.zoom_factor = kb.zoom_factor →
        build_command fmt { b with background := some (Background.image f kb2) }
          = build_command fmt b) := by
  constructor
  · have hz : zoom_expressions fmt (kb.zoom_factor.getD (1/1000)) "zoom-to-top-left"
        = "z=\x27zoom+" ++ fmt (kb.zoom_factor.getD (1/1000)) ++ "\x27:x=0:y=0" := rfl
    apply String.ext
    simp only [background_filter]
    rw [hz]
    simp [String.data_append, List.append_assoc, Nat.cast_ofNat,
      show toString (0 : ℕ) = "0" from rfl, show toString (25 : ℕ) = "25" from rfl]
  · intro b kb2 hbg hzf
    obtain ⟨w2, h2, fp, bgf, af, caps, op, mu⟩ := b
    dsimp only at hbg
    subst hbg
    exact build_command_image_config_congr fmt w2 h2 fp f kb kb2 af caps op mu hzf

end VB
